import Mathlib

/-!
Shallow embedding of `src/vm_controller.py` (class `CloudHypervisorVM`),
a control-plane shim that launches and supervises one Cloud Hypervisor
micro-VM subprocess and drives it through a Unix-socket REST-like API.

Modelling conventions:
- The configuration dictionary is an ordered association list
  `List (String × Value)`; Python dict iteration order is insertion order,
  and `dict.update` replaces the value of an existing key in place while
  appending new keys, which `dictSet` mirrors.
- Values cover the universe the program actually uses: string and integer
  scalars, and one-level lists of flat dicts (disk descriptors) or scalars.
- Effectful methods become functions of the controller state plus an
  explicit environment describing what the outside world (filesystem,
  subprocess, HTTP transport) does during the call; they return the new
  state, the Python return value, and a trace of observable effects.
- A raised-and-escaping Python exception is modelled as a distinguished
  result constructor where a claim needs it (`get_logs` timeout).
-/

set_option autoImplicit false

namespace VMSpec

/-- Scalar configuration values as the program uses them: Python strings
and integers. -/
inductive PyScalar where
  | s : String → PyScalar
  | i : Int → PyScalar
deriving DecidableEq, Repr

/-- One element of a list-valued configuration entry: either a flat dict of
scalars (a disk descriptor such as `{"path": "./rootfs.img"}`) or a bare
scalar. -/
inductive DiskEntry where
  | dict : List (String × PyScalar) → DiskEntry
  | scalar : PyScalar → DiskEntry
deriving DecidableEq, Repr

/-- A configuration value: a scalar, or a list of `DiskEntry`. -/
inductive Value where
  | scalar : PyScalar → Value
  | list : List DiskEntry → Value
deriving DecidableEq, Repr

/-- The configuration dictionary, in insertion order. -/
abbrev Config := List (String × Value)

/-- Python `str()` of a scalar: a string is itself, an int prints its
digits. -/
def pyStrScalar : PyScalar → String
  | .s str => str
  | .i n => toString n

/-- The single-quote character, used by Python `repr` of strings. -/
def sq : String := String.singleton (Char.ofNat 39)

/-- Python `repr()` of a scalar (strings are quoted; covers strings without
embedded quote characters, which is the universe the program uses). -/
def pyReprScalar : PyScalar → String
  | .s str => sq ++ str ++ sq
  | .i n => toString n

/-- Python `repr()` of a `DiskEntry`, as it appears inside `str(list)`. -/
def pyReprDisk : DiskEntry → String
  | .dict kvs =>
      "\x7b" ++ String.intercalate ", "
        (kvs.map (fun kv => pyReprScalar (.s kv.1) ++ ": " ++ pyReprScalar kv.2))
      ++ "\x7d"
  | .scalar sc => pyReprScalar sc

/-- Python `str()` of a `Value`: scalars via `pyStrScalar`; a list prints as
`[elem, elem, ...]` with `repr` of each element, exactly what
`cmd.extend([f"--\x7bkey\x7d", str(value)])` produces for a list value. -/
def pyStr : Value → String
  | .scalar sc => pyStrScalar sc
  | .list ds => "[" ++ String.intercalate ", " (ds.map pyReprDisk) ++ "]"

/-- Concatenation of the images of `f`, in order (List.flatMap written out
so the development does not depend on library naming). -/
def listConcatMap {α β : Type} (f : α → List β) : List α → List β
  | [] => []
  | x :: xs => f x ++ listConcatMap f xs

/-- The two command-line tokens one disk element contributes inside the
`key == "disk"` branch of `build_command`: a dict becomes the comma-joined
`k=v,...` token, a bare element becomes `str(disk)`. -/
def diskTokens (key : String) : DiskEntry → List String
  | .dict d =>
      ["--" ++ key,
       String.intercalate "," (d.map (fun p => p.1 ++ "=" ++ pyStrScalar p.2))]
  | .scalar sc => ["--" ++ key, pyStrScalar sc]

/-- Body of the `for key, value in self.config.items()` loop of
`build_command` (lines 64-73): when the key is `"disk"` and the value is a
list, extend `cmd` once per element (comma-joined token for a dict,
`str(disk)` otherwise); in every other case extend with
`["--key", str(value)]`. -/
def buildStep (cmd : List String) (kv : String × Value) : List String :=
  match kv with
  | (key, Value.list value) =>
      if key == "disk" then
        value.foldl (fun c disk => c ++ diskTokens key disk) cmd
      else
        cmd ++ ["--" ++ key, pyStr (Value.list value)]
  | (key, Value.scalar sc) => cmd ++ ["--" ++ key, pyStrScalar sc]

/-- Embedding of `CloudHypervisorVM.build_command` (src/vm_controller.py
lines 60-75): starts from `["cloud-hypervisor"]` and runs the loop body
over the entries in dictionary order; the accumulator `foldl` mirrors the
sequential `cmd.extend`. -/
def build_command (config : Config) : List String :=
  config.foldl buildStep ["cloud-hypervisor"]

/-- Embedding of Python `dict` assignment `m[k] = v` as `dict.update`
performs it per key: replace the value of an existing key in place
(keeping its position), append a genuinely new key at the end. -/
def dictSet : Config → String → Value → Config
  | [], k, v => [(k, v)]
  | kv :: rest, k, v =>
      if kv.1 == k then (k, v) :: rest else kv :: dictSet rest k v

/-- Embedding of `self.config.update(kwargs)`: fold `dictSet` over the
patch in order (last write wins per key). -/
def dictUpdate (m : Config) (patch : List (String × Value)) : Config :=
  patch.foldl (fun acc kv => dictSet acc kv.1 kv.2) m

/-- First-match lookup in the configuration dictionary. -/
def configGet : Config → String → Option Value
  | [], _ => none
  | kv :: rest, k => if kv.1 == k then some kv.2 else configGet rest k

/-- JSON documents, the persisted representation `json.dump` writes and
`json.load` reads back. -/
inductive Json where
  | str : String → Json
  | num : Int → Json
  | arr : List Json → Json
  | obj : List (String × Json) → Json

/-- JSON encoding of a scalar, as `json.dump` serializes it. -/
def encodeScalar : PyScalar → Json
  | .s str => .str str
  | .i n => .num n

/-- JSON encoding of a `DiskEntry`. -/
def encodeDisk : DiskEntry → Json
  | .dict kvs => .obj (kvs.map (fun kv => (kv.1, encodeScalar kv.2)))
  | .scalar sc => encodeScalar sc

/-- JSON encoding of a `Value`. -/
def encodeValue : Value → Json
  | .scalar sc => encodeScalar sc
  | .list ds => .arr (ds.map encodeDisk)

/-- JSON encoding of the whole configuration dictionary; this is the
document `save_config` writes (`json.dump(self.config, f)`), key order
preserved. -/
def encodeConfig (c : Config) : Json := .obj (c.map (fun kv => (kv.1, encodeValue kv.2)))

/-- Sequence an option-valued decoder over a list, failing if any element
fails. -/
def decodeAll {α β : Type} (f : α → Option β) : List α → Option (List β)
  | [] => some []
  | x :: xs =>
      match f x, decodeAll f xs with
      | some y, some ys => some (y :: ys)
      | _, _ => none

/-- Decoding of a scalar from JSON (inverse of `encodeScalar` on the value
universe the program serializes). -/
def decodeScalar : Json → Option PyScalar
  | .str s => some (.s s)
  | .num n => some (.i n)
  | _ => none

/-- Decoding of a `DiskEntry` from JSON. -/
def decodeDisk : Json → Option DiskEntry
  | .obj kvs =>
      (decodeAll (fun kv => (decodeScalar kv.2).map (fun sc => (kv.1, sc))) kvs).map .dict
  | .str s => some (.scalar (.s s))
  | .num n => some (.scalar (.i n))
  | .arr _ => none

/-- Decoding of a `Value` from JSON. -/
def decodeValue : Json → Option Value
  | .arr ds => (decodeAll decodeDisk ds).map .list
  | .str s => some (.scalar (.s s))
  | .num n => some (.scalar (.i n))
  | .obj _ => none

/-- Decoding of a configuration dictionary from JSON, as `json.load`
reconstructs the dict (insertion order preserved). On documents produced
by `encodeConfig` this is total, which is all `load_config` after
`save_config` exercises. -/
def decodeConfig : Json → Option Config
  | .obj kvs => decodeAll (fun kv => (decodeValue kv.2).map (fun v => (kv.1, v))) kvs
  | _ => none

/-- State of one `CloudHypervisorVM` instance: the constructor-set names
and paths, the owned subprocess handle (`process`, modelled as the PID of
the `Popen` object, `none` when no handle is held), and the configuration
dictionary. The `requests_unixsocket.Session` carries no state the claims
observe and is omitted. -/
structure VMState where
  vm_name : String
  config_path : String
  api_socket : String
  process : Option Nat
  config : Config
deriving DecidableEq, Repr

/-- The built-in default configuration of `__init__` (lines 29-38); its
`api-socket` entry is the socket path derived from the VM name. -/
def default_config (api_socket : String) : Config :=
  [("kernel", .scalar (.s "./vmlinux")),
   ("disk", .list [.dict [("path", .s "./rootfs.img")]]),
   ("cmdline", .scalar (.s "console=hvc0 root=/dev/vda rw init=/init")),
   ("cpus", .scalar (.s "boot=2")),
   ("memory", .scalar (.s "size=256M")),
   ("serial", .scalar (.s "tty")),
   ("console", .scalar (.s "off")),
   ("api-socket", .scalar (.s api_socket))]

/-- Embedding of `CloudHypervisorVM.__init__` (lines 21-38): derives the
config path (when none is passed; Python also falls back on any falsy
value) and the socket path from the VM name, starts with no process
handle and the default configuration. -/
def init (vm_name : String) (config_path : Option String) : VMState :=
  let cp := match config_path with
    | some p => p
    | none => "/tmp/" ++ vm_name ++ "-config.json"
  let sock := "/tmp/" ++ vm_name ++ "-api.sock"
  { vm_name := vm_name, config_path := cp, api_socket := sock,
    process := none, config := default_config sock }

/-- Embedding of `update_config(**kwargs)` (lines 40-43): merges the patch
into the configuration, touching nothing else. -/
def update_config (s : VMState) (kwargs : List (String × Value)) : VMState :=
  { s with config := dictUpdate s.config kwargs }

/-- Embedding of `save_config` (lines 45-49): the JSON document written to
`s.config_path`. -/
def save_config (s : VMState) : Json := encodeConfig s.config

/-- Embedding of `load_config` (lines 51-58). The argument is the document
found at `s.config_path` (`none` when the file does not exist, in which
case the current configuration is kept and a warning logged). On a present
document the configuration is replaced by the decoded dictionary;
`decodeConfig` is total on every document `save_config` writes, which is
the shape this development exercises. -/
def load_config (s : VMState) (file : Option Json) : VMState :=
  match file with
  | none => s
  | some j =>
      match decodeConfig j with
      | some c => { s with config := c }
      | none => s

/-- Decoded success payload of `api_request`: parsed JSON, or the raw text
fallback when `response.json()` fails. -/
inductive ApiResult where
  | json : Json → ApiResult
  | text : String → ApiResult

/-- What the outside world does during one `api_request` call:
whether `os.path.exists(self.api_socket)` holds, whether the HTTP call
raises (connection failure), and otherwise the status code, body text and
its JSON parse (`none` when the body is not valid JSON). -/
structure ApiEnv where
  socketExists : Bool
  connectFails : Bool
  status : Nat
  text : String
  jsonBody : Option Json

/-- Observable outcome of one `api_request` call: the Python return value,
whether a connection was attempted, the socket path whose existence was
checked, and the URL built for the request (`none` when the existence
check short-circuited before building it). -/
structure ApiOutcome where
  result : Option ApiResult
  attempted : Bool
  checkedPath : String
  url : Option String

/-- The URL `api_request` builds from the socket path and endpoint. -/
def apiUrl (s : VMState) (endpoint : String) : String :=
  "http+unix://" ++ (s.api_socket.replace "/" "%2F") ++ endpoint

/-- Embedding of `api_request(method, endpoint, data)` (lines 149-179):
short-circuits to `None` without connecting when the socket path does not
exist; for GET/PUT/POST performs the request, returning `None` on a raised
transport error or a non-200 status, the parsed JSON body on a 200, and
the raw text when the 200 body fails to parse; any other method is
rejected as unsupported without a connection attempt. Every raising
operation sits inside the `try`, so the embedding is a total function:
no call raises to the caller. -/
def api_request (s : VMState) (method : String) (endpoint : String)
    (data : Option Json) (env : ApiEnv) : ApiOutcome :=
  if env.socketExists = false then
    { result := none, attempted := false, checkedPath := s.api_socket, url := none }
  else
    let url := apiUrl s endpoint
    let _body := data
    if method == "GET" || method == "PUT" || method == "POST" then
      if env.connectFails then
        { result := none, attempted := true, checkedPath := s.api_socket, url := some url }
      else if env.status == 200 then
        match env.jsonBody with
        | some j =>
            { result := some (.json j), attempted := true,
              checkedPath := s.api_socket, url := some url }
        | none =>
            { result := some (.text env.text), attempted := true,
              checkedPath := s.api_socket, url := some url }
      else
        { result := none, attempted := true, checkedPath := s.api_socket, url := some url }
    else
      { result := none, attempted := false, checkedPath := s.api_socket, url := some url }

/-- Embedding of `ping` (lines 145-147): GET on the liveness endpoint. -/
def ping (s : VMState) (env : ApiEnv) : Option ApiResult :=
  (api_request s "GET" "/api/v1/vmm.ping" none env).result

/-- Embedding of `pause` (lines 129-131). -/
def pause (s : VMState) (env : ApiEnv) : Option ApiResult :=
  (api_request s "PUT" "/api/v1/vm.pause" none env).result

/-- Embedding of `resume` (lines 133-135). -/
def resume (s : VMState) (env : ApiEnv) : Option ApiResult :=
  (api_request s "PUT" "/api/v1/vm.resume" none env).result

/-- Embedding of `get_info` (lines 141-143). -/
def get_info (s : VMState) (env : ApiEnv) : Option ApiResult :=
  (api_request s "GET" "/api/v1/vm.info" none env).result

/-- What the outside world does during one `start` call: the result of
`self.process.poll()` when a handle is held (`pollIsNone = true` means the
process is still running), whether a stale socket file pre-exists, whether
`subprocess.Popen` succeeds, the PID it hands back, and whether the socket
file appears within the 10-second, 100-ms-interval poll loop. -/
structure StartEnv where
  pollIsNone : Bool
  staleSocket : Bool
  spawnOk : Bool
  newPid : Nat
  socketAppears : Bool
deriving DecidableEq, Repr

/-- Python return value of `start`: the bare `return` on the
already-running path (`None`), `True` on success, `False` on failure. -/
inductive StartRet where
  | alreadyRunning
  | ok
  | failed
deriving DecidableEq, Repr

/-- Outcome of one `start` call: the new state, the return value, and the
observable effects — whether a `Popen` spawn happened, whether a stale
socket file was removed, whether the call terminated any process (it never
does), and the path the readiness loop polled (`none` when no poll loop
ran). -/
structure StartResult where
  state : VMState
  ret : StartRet
  spawned : Bool
  removedStale : Bool
  terminated : Bool
  polledPath : Option String
deriving DecidableEq, Repr

/-- The spawn-and-poll phase of `start` (lines 83-113): remove a stale
socket file, `Popen` the built command (on a raised spawn error the old
handle value is kept and `False` returned), then poll for the socket to
appear, returning `True` if it does within the bound and `False`
otherwise — on that timeout path the fresh handle is kept and the process
is not terminated. -/
def startSpawn (s : VMState) (env : StartEnv) : StartResult :=
  if env.spawnOk then
    let s2 : VMState := { s with process := some env.newPid }
    if env.socketAppears then
      { state := s2, ret := .ok, spawned := true, removedStale := env.staleSocket,
        terminated := false, polledPath := some s.api_socket }
    else
      { state := s2, ret := .failed, spawned := true, removedStale := env.staleSocket,
        terminated := false, polledPath := some s.api_socket }
  else
    { state := s, ret := .failed, spawned := false, removedStale := env.staleSocket,
      terminated := false, polledPath := none }

/-- Embedding of `start` (lines 77-113): when a handle is held and
`poll()` returns `None` the call is the already-running no-op (bare
`return`, nothing touched); otherwise it proceeds to spawn and poll. -/
def start (s : VMState) (env : StartEnv) : StartResult :=
  match s.process with
  | some _ =>
      if env.pollIsNone then
        { state := s, ret := .alreadyRunning, spawned := false,
          removedStale := false, terminated := false, polledPath := none }
      else startSpawn s env
  | none => startSpawn s env

/-- What the outside world does during one `stop` call: the transport
environment seen by the embedded shutdown request, and whether
`self.process.wait(timeout=10)` returns before the bound (`false` means it
raises `TimeoutExpired`). -/
structure StopEnv where
  api : ApiEnv
  exitsWithinTimeout : Bool

/-- Which path `stop` took: the no-handle no-op, the graceful path
(bounded wait succeeded), or the forced path (terminate plus unbounded
wait). -/
inductive StopPath where
  | noop
  | graceful
  | forced
deriving DecidableEq, Repr

/-- Outcome of one `stop` call: the new state, the path taken, whether the
graceful shutdown request was issued, and whether `terminate()` was
called. -/
structure StopResult where
  state : VMState
  path : StopPath
  shutdownRequested : Bool
  terminated : Bool

/-- Embedding of `stop` (lines 115-127): nothing happens without a handle;
with one, the shutdown request is issued through `api_request` (which
never raises — its result, success or `None`, is discarded), then the
bounded wait runs: if it returns in time the path is graceful, and only a
`TimeoutExpired` from it reaches the `except` that terminates and waits
unboundedly. The `finally` clears the handle on every path. -/
def stop (s : VMState) (env : StopEnv) : StopResult :=
  match s.process with
  | none => { state := s, path := .noop, shutdownRequested := false, terminated := false }
  | some _ =>
      let _shutdown := api_request s "PUT" "/api/v1/vm.shutdown" none env.api
      if env.exitsWithinTimeout then
        { state := { s with process := none }, path := .graceful,
          shutdownRequested := true, terminated := false }
      else
        { state := { s with process := none }, path := .forced,
          shutdownRequested := true, terminated := true }

/-- What the outside world reports during one `is_running` call: the
`poll()` result for a held handle (`true` means still running) and the
transport environment of the embedded ping. -/
structure RunEnv where
  pollIsNone : Bool
  api : ApiEnv

/-- Embedding of `is_running` (lines 181-191): `False` without a handle,
`False` when the non-blocking `poll()` reports an exit, else the truth of
`ping() is not None`. -/
def is_running (s : VMState) (env : RunEnv) : Bool :=
  match s.process with
  | none => false
  | some _ =>
      if env.pollIsNone = false then false
      else (ping s env.api).isSome

/-- What the outside world does during one `get_logs` call: whether
`communicate(timeout=1)` times out, and the drained stdout and stderr
otherwise. -/
structure LogsEnv where
  timesOut : Bool
  stdout : String
  stderr : String
deriving DecidableEq, Repr

/-- Result of `get_logs`: the `None` return without a handle, the drained
`{"stdout": ..., "stderr": ...}` dict, or the `subprocess.TimeoutExpired`
exception that escapes the method (no `try` surrounds the
`communicate(timeout=1)` call). -/
inductive LogsResult where
  | noProcess
  | logs : String → String → LogsResult
  | timeoutError
deriving DecidableEq, Repr

/-- Embedding of `get_logs` (lines 193-198). -/
def get_logs (s : VMState) (env : LogsEnv) : LogsResult :=
  match s.process with
  | none => .noProcess
  | some _ =>
      if env.timesOut then .timeoutError
      else .logs env.stdout env.stderr

/-- Rendering asserted by the specification sentence on
`renderArguments()`: one `--key value` pair per scalar entry, and for
EVERY list-valued entry one token per element, paired with the same flag.
Stated from the specification wording, for comparison with
`build_command`, which special-cases the key `"disk"`. -/
def renderArgumentsClaim (config : Config) : List String :=
  "cloud-hypervisor" ::
    listConcatMap
      (fun kv =>
        match kv with
        | (key, Value.list ds) => listConcatMap (diskTokens key) ds
        | (key, Value.scalar sc) => ["--" ++ key, pyStrScalar sc])
      config

/-- Tokens contributed by one entry, as the amended claim states them:
scalar entries give one `--key value` pair; a list value under the key
`"disk"` gives one token per element; a list value under any other key
gives a single `--key str(value)` pair. -/
def entryTokensAmended : String × Value → List String
  | (key, Value.list ds) =>
      if key = "disk" then listConcatMap (diskTokens key) ds
      else ["--" ++ key, pyStr (Value.list ds)]
  | (key, Value.scalar sc) => ["--" ++ key, pyStrScalar sc]

/-- A freshly constructed controller (no process handle held). -/
def s0 : VMState := init "micro-vm" none

/-- A controller holding a live process handle with PID 7. -/
def s1 : VMState := { s0 with process := some 7 }

/-- Folding list-append of token contributions equals the accumulator
followed by the concatenation of the contributions. -/
theorem foldl_append_concatMap {α β : Type} (f : α → List β) :
    ∀ (l : List α) (acc : List β),
      l.foldl (fun c x => c ++ f x) acc = acc ++ listConcatMap f l := by
  intro l
  induction l with
  | nil => intro acc; simp [listConcatMap]
  | cons x xs ih => intro acc; simp [listConcatMap, ih, List.append_assoc]

/-- One loop iteration of `build_command` appends exactly the tokens the
amended per-entry description assigns to that entry. -/
theorem buildStep_eq_amended (cmd : List String) (kv : String × Value) :
    buildStep cmd kv = cmd ++ entryTokensAmended kv := by
  obtain ⟨key, v⟩ := kv
  cases v with
  | scalar sc => rfl
  | list ds =>
      by_cases h : key = "disk"
      · simp [buildStep, entryTokensAmended, h, foldl_append_concatMap]
      · simp [buildStep, entryTokensAmended, h]

/-- Looking up a key just written by `dictSet` yields the written value. -/
theorem configGet_dictSet (c : Config) (k : String) (v : Value) :
    configGet (dictSet c k v) k = some v := by
  induction c with
  | nil => simp [dictSet, configGet]
  | cons kv rest ih =>
      by_cases h : (kv.1 == k) = true
      · simp [dictSet, configGet, h]
      · simp [dictSet, configGet, h, ih]

/-- Decoding a list whose elements all decode back maps `decodeAll` over
the encoded list to the original. -/
theorem decodeAll_map_of_forall {α β : Type} (f : β → Option α) (g : α → β) :
    ∀ l : List α, (∀ x ∈ l, f (g x) = some x) → decodeAll f (l.map g) = some l := by
  intro l
  induction l with
  | nil => intro _; rfl
  | cons x xs ih =>
      intro h
      have hx : f (g x) = some x := h x (by simp)
      have hxs : decodeAll f (xs.map g) = some xs :=
        ih (fun y hy => h y (by simp [hy]))
      simp [decodeAll, hx, hxs]

/-- Scalars decode back from their JSON encoding. -/
theorem decodeScalar_encodeScalar (sc : PyScalar) :
    decodeScalar (encodeScalar sc) = some sc := by
  cases sc <;> rfl

/-- Disk entries decode back from their JSON encoding. -/
theorem decodeDisk_encodeDisk (d : DiskEntry) :
    decodeDisk (encodeDisk d) = some d := by
  cases d with
  | scalar sc => cases sc <;> rfl
  | dict kvs =>
      have h := decodeAll_map_of_forall
        (fun kv : String × Json => (decodeScalar kv.2).map (fun sc => (kv.1, sc)))
        (fun kv : String × PyScalar => (kv.1, encodeScalar kv.2))
        kvs
        (fun kv _ => by simp [decodeScalar_encodeScalar])
      simp [encodeDisk, decodeDisk, h]

/-- Values decode back from their JSON encoding. -/
theorem decodeValue_encodeValue (v : Value) :
    decodeValue (encodeValue v) = some v := by
  cases v with
  | scalar sc => cases sc <;> rfl
  | list ds =>
      have h := decodeAll_map_of_forall decodeDisk encodeDisk ds
        (fun d _ => decodeDisk_encodeDisk d)
      simp [encodeValue, decodeValue, h]

/-- The configuration dictionary decodes back from its JSON encoding. -/
theorem decodeConfig_encodeConfig (c : Config) :
    decodeConfig (encodeConfig c) = some c := by
  have h := decodeAll_map_of_forall
    (fun kv : String × Json => (decodeValue kv.2).map (fun v => (kv.1, v)))
    (fun kv : String × Value => (kv.1, encodeValue kv.2))
    c
    (fun kv _ => by simp [decodeValue_encodeValue])
  simp [encodeConfig, decodeConfig, h]

/-- C1: after every `stop()` call the process handle is `None`, whichever
of the no-op, graceful, or forced paths was taken — the `finally` block
clears it unconditionally. -/
theorem stop_clears_process_handle (s : VMState) (env : StopEnv) :
    (stop s env).state.process = none := by
  cases h : s.process with
  | none => simp [stop, h]
  | some p => cases he : env.exitsWithinTimeout <;> simp [stop, h, he]

/-- C5: `is_running` returns true exactly when a handle is held, the
non-blocking `poll()` reports the process has not exited, and the ping
request returns a non-failure result; in particular it is false with no
handle and false as soon as the process has exited on its own. -/
theorem is_running_iff_ping (s : VMState) (env : RunEnv) :
    is_running s env = true ↔
      (s.process.isSome = true ∧ env.pollIsNone = true ∧
        (ping s env.api).isSome = true) := by
  cases h : s.process with
  | none => simp [is_running, h]
  | some p => cases hp : env.pollIsNone <;> simp [is_running, h, hp]

/-- C9: `get_logs` distinguishes its three outcomes — `None` without a
handle, the drained stdout/stderr dict when the bounded drain completes,
and the escaping `TimeoutExpired` when it does not — and the timeout
outcome differs from both the no-process signal and any drained result,
the empty drain included. -/
theorem get_logs_three_outcomes (s : VMState) (env : LogsEnv) :
    (s.process = none → get_logs s env = LogsResult.noProcess) ∧
    (s.process.isSome = true → env.timesOut = false →
       get_logs s env = LogsResult.logs env.stdout env.stderr) ∧
    (s.process.isSome = true → env.timesOut = true →
       get_logs s env = LogsResult.timeoutError) ∧
    (∀ o e : String, LogsResult.timeoutError ≠ LogsResult.logs o e) ∧
    LogsResult.timeoutError ≠ LogsResult.noProcess := by
  refine ⟨fun h => by simp [get_logs, h], ?_, ?_, fun o e => by simp, by simp⟩
  · intro hp ht
    cases h : s.process with
    | none => simp [h] at hp
    | some p => simp [get_logs, h, ht]
  · intro hp ht
    cases h : s.process with
    | none => simp [h] at hp
    | some p => simp [get_logs, h, ht]

/-- Witness for C9 at concrete inputs: a fresh controller yields the
no-process signal, a live one yields the drained logs when the drain
completes and the timeout outcome when it does not. -/
theorem get_logs_three_outcomes_witness :
    get_logs s0 ⟨false, "out", "err"⟩ = LogsResult.noProcess ∧
    get_logs s1 ⟨false, "out", "err"⟩ = LogsResult.logs "out" "err" ∧
    get_logs s1 ⟨true, "out", "err"⟩ = LogsResult.timeoutError :=
  ⟨(get_logs_three_outcomes s0 ⟨false, "out", "err"⟩).1 rfl,
   (get_logs_three_outcomes s1 ⟨false, "out", "err"⟩).2.1 rfl rfl,
   (get_logs_three_outcomes s1 ⟨true, "out", "err"⟩).2.2.1 rfl rfl⟩

/-- C6: the API transport is a total function of its inputs (no call
raises), short-circuits to a failure without attempting a connection when
the socket path does not exist, rejects unsupported methods without a
connection attempt, and returns a failure on a raised transport error or
a non-200 status. -/
theorem api_request_failure_modes (s : VMState) (m e : String)
    (d : Option Json) (env : ApiEnv) :
    (env.socketExists = false →
       api_request s m e d env =
         { result := none, attempted := false, checkedPath := s.api_socket, url := none }) ∧
    (m ≠ "GET" → m ≠ "PUT" → m ≠ "POST" →
       (api_request s m e d env).result = none ∧
       (api_request s m e d env).attempted = false) ∧
    (env.connectFails = true → (api_request s m e d env).result = none) ∧
    (env.status ≠ 200 → (api_request s m e d env).result = none) := by
  refine ⟨fun h => by simp [api_request, h], ?_, ?_, ?_⟩
  · intro h1 h2 h3
    cases hse : env.socketExists
    · simp [api_request, hse]
    · simp [api_request, hse, h1, h2, h3]
  · intro hcf
    cases hse : env.socketExists
    · simp [api_request, hse]
    · by_cases hm : (m == "GET" || m == "PUT" || m == "POST") = true
      · simp [api_request, hse, hm, hcf]
      · simp [api_request, hse, hm]
  · intro hst
    cases hse : env.socketExists
    · simp [api_request, hse]
    · by_cases hm : (m == "GET" || m == "PUT" || m == "POST") = true
      · cases hcf : env.connectFails
        · simp [api_request, hse, hm, hcf, hst]
        · simp [api_request, hse, hm, hcf]
      · simp [api_request, hse, hm]

/-- Witness for C6 at concrete inputs: a missing socket short-circuits, a
DELETE is rejected, a raised connection error and an HTTP 500 each yield
the failure result. -/
theorem api_request_failure_modes_witness :
    api_request s1 "GET" "/api/v1/vmm.ping" none ⟨false, false, 200, "", none⟩ =
      { result := none, attempted := false, checkedPath := s1.api_socket, url := none } ∧
    (api_request s1 "DELETE" "/api/v1/vmm.ping" none ⟨true, false, 200, "ok", none⟩).result = none ∧
    (api_request s1 "DELETE" "/api/v1/vmm.ping" none ⟨true, false, 200, "ok", none⟩).attempted = false ∧
    (api_request s1 "GET" "/api/v1/vmm.ping" none ⟨true, true, 200, "", none⟩).result = none ∧
    (api_request s1 "PUT" "/api/v1/vm.pause" none ⟨true, false, 500, "err", none⟩).result = none := by
  have h1 := (api_request_failure_modes s1 "GET" "/api/v1/vmm.ping" none
    ⟨false, false, 200, "", none⟩).1 rfl
  have h2 := (api_request_failure_modes s1 "DELETE" "/api/v1/vmm.ping" none
    ⟨true, false, 200, "ok", none⟩).2.1 (by decide) (by decide) (by decide)
  have h3 := (api_request_failure_modes s1 "GET" "/api/v1/vmm.ping" none
    ⟨true, true, 200, "", none⟩).2.2.1 rfl
  have h4 := (api_request_failure_modes s1 "PUT" "/api/v1/vm.pause" none
    ⟨true, false, 500, "err", none⟩).2.2.2 (by decide)
  exact ⟨h1, h2.1, h2.2, h3, h4⟩

/-- C7 counterexample: on a configuration with a list value under the key
`"net"`, `build_command` emits a single `--net` pair whose value is the
Python `str()` of the whole list, while the claim asserts one pair per
list element — the per-element rendering only happens for the key
`"disk"`. -/
theorem build_command_list_key_counterexample :
    build_command [("net", Value.list [.scalar (.i 1), .scalar (.i 2)])] =
      ["cloud-hypervisor", "--net", "[1, 2]"] ∧
    renderArgumentsClaim [("net", Value.list [.scalar (.i 1), .scalar (.i 2)])] =
      ["cloud-hypervisor", "--net", "1", "--net", "2"] ∧
    build_command [("net", Value.list [.scalar (.i 1), .scalar (.i 2)])] ≠
      renderArgumentsClaim [("net", Value.list [.scalar (.i 1), .scalar (.i 2)])] := by
  refine ⟨by decide, by decide, by decide⟩

/-- C7 amended: the argument list is `cloud-hypervisor` followed, in
insertion order, by one `--key value` pair per scalar entry; a list value
under the key `"disk"` contributes one comma-joined (or `str(element)`)
token per element, each paired with the flag; a list value under any
other key contributes a single `--key str(value)` pair. -/
theorem build_command_renders_amended (config : Config) :
    build_command config =
      "cloud-hypervisor" :: listConcatMap entryTokensAmended config := by
  unfold build_command
  have h : ∀ (l : Config) (acc : List String),
      l.foldl buildStep acc = acc ++ listConcatMap entryTokensAmended l := by
    intro l
    induction l with
    | nil => intro acc; simp [listConcatMap]
    | cons kv rest ih =>
        intro acc
        simp [listConcatMap, buildStep_eq_amended, ih, List.append_assoc]
  simpa using h config ["cloud-hypervisor"]

/-- C8: saving the configuration and loading the written document into any
controller (a fresh one included) restores the exact configuration
mapping, and hence the exact rendered argument list. -/
theorem save_load_roundtrip (s t : VMState) :
    (load_config t (some (save_config s))).config = s.config ∧
    build_command (load_config t (some (save_config s))).config =
      build_command s.config := by
  have h : decodeConfig (encodeConfig s.config) = some s.config :=
    decodeConfig_encodeConfig s.config
  have hc : (load_config t (some (save_config s))).config = s.config := by
    simp [load_config, save_config, h]
  exact ⟨hc, by rw [hc]⟩

/-- C2 counterexample: with a live handle, a failed transport (socket path
absent, so the shutdown request returns the failure value `None`) and a
process that still exits within the bounded wait, `stop()` takes the
graceful path — a transport failure does not by itself escalate to forced
termination, contrary to the claim. -/
theorem stop_transport_failure_counterexample :
    ¬ (∀ (s : VMState) (env : StopEnv),
        s.process.isSome = true →
        (api_request s "PUT" "/api/v1/vm.shutdown" none env.api).result = none →
        (stop s env).path = StopPath.forced) := by
  intro h
  have hc := h s1 ⟨⟨false, false, 200, "", none⟩, true⟩ rfl rfl
  exact absurd hc (by decide)

/-- C2 amended: `stop()` with a live handle first issues the graceful
shutdown request through the API transport (whose failures are returned
as values, never raised) and waits a bounded interval for process exit;
it escalates to forced termination followed by the unbounded wait exactly
when that bounded wait times out. -/
theorem stop_escalates_exactly_on_wait_timeout (s : VMState) (env : StopEnv)
    (h : s.process.isSome = true) :
    (stop s env).shutdownRequested = true ∧
    ((stop s env).path = StopPath.forced ↔ env.exitsWithinTimeout = false) ∧
    ((stop s env).path = StopPath.graceful ↔ env.exitsWithinTimeout = true) ∧
    ((stop s env).terminated = true ↔ env.exitsWithinTimeout = false) := by
  cases hp : s.process with
  | none => simp [hp] at h
  | some p => cases he : env.exitsWithinTimeout <;> simp [stop, hp, he]

/-- Witness for the amended C2 at a concrete input: with a live handle and
a bounded wait that times out, the shutdown request is issued and the
forced path is taken. -/
theorem stop_escalates_witness :
    (stop s1 ⟨⟨true, false, 200, "ok", none⟩, false⟩).shutdownRequested = true ∧
    (stop s1 ⟨⟨true, false, 200, "ok", none⟩, false⟩).path = StopPath.forced := by
  have h := stop_escalates_exactly_on_wait_timeout s1
    ⟨⟨true, false, 200, "ok", none⟩, false⟩ rfl
  exact ⟨h.1, h.2.1.mpr rfl⟩

/-- C3: when the spawn succeeds but the socket never appears within the
bounded wait, `start()` returns `False`, the spawned handle stays held
(non-null, not cleared), and the call terminates no process. -/
theorem start_socket_timeout_keeps_process (s : VMState) (env : StartEnv)
    (hp : s.process = none) (hs : env.spawnOk = true)
    (ha : env.socketAppears = false) :
    (start s env).ret = StartRet.failed ∧
    (start s env).state.process = some env.newPid ∧
    (start s env).terminated = false ∧
    (start s env).spawned = true := by
  simp [start, hp, startSpawn, hs, ha]

/-- Witness for C3 at a concrete input: a fresh controller whose socket
never appears ends with return `False` and the fresh PID still held. -/
theorem start_socket_timeout_witness :
    (start s0 ⟨true, false, true, 42, false⟩).ret = StartRet.failed ∧
    (start s0 ⟨true, false, true, 42, false⟩).state.process = some 42 ∧
    (start s0 ⟨true, false, true, 42, false⟩).terminated = false := by
  have h := start_socket_timeout_keeps_process s0 ⟨true, false, true, 42, false⟩
    rfl rfl rfl
  exact ⟨h.1, h.2.1, h.2.2.1⟩

/-- C4: `start()` with a handle whose `poll()` reports still-running is a
no-op — no spawn, no stale-socket removal, no termination, state
unchanged, bare return — and consequently two `start()` calls without an
intervening `stop()` perform exactly one spawn, the second leaving the
state of the first untouched. -/
theorem start_noop_when_already_running
    (s t : VMState) (env env1 env2 : StartEnv)
    (hp : s.process.isSome = true) (hpoll : env.pollIsNone = true)
    (ht : t.process = none) (h1 : env1.spawnOk = true)
    (h2 : env2.pollIsNone = true) :
    start s env =
      { state := s, ret := StartRet.alreadyRunning, spawned := false,
        removedStale := false, terminated := false, polledPath := none } ∧
    (start t env1).spawned = true ∧
    (start (start t env1).state env2).spawned = false ∧
    (start (start t env1).state env2).state = (start t env1).state := by
  obtain ⟨p, hp'⟩ := Option.isSome_iff_exists.mp hp
  refine ⟨by simp [start, hp', hpoll], ?_, ?_, ?_⟩ <;>
    cases hsa : env1.socketAppears <;>
      simp [start, ht, startSpawn, h1, hsa, h2]

/-- Witness for C4 at concrete inputs: the call on a live controller makes
no spawn; a fresh controller spawns once and the second call spawns
nothing and changes nothing. -/
theorem start_noop_witness :
    (start s1 ⟨true, false, true, 9, true⟩).spawned = false ∧
    (start s0 ⟨true, false, true, 9, true⟩).spawned = true ∧
    (start (start s0 ⟨true, false, true, 9, true⟩).state
      ⟨true, false, true, 11, true⟩).spawned = false := by
  have h := start_noop_when_already_running s1 s0
    ⟨true, false, true, 9, true⟩ ⟨true, false, true, 9, true⟩
    ⟨true, false, true, 11, true⟩ rfl rfl rfl rfl rfl
  exact ⟨by rw [h.1], h.2.1, h.2.2.1⟩

/-- C10: the socket path is fixed at construction as
`/tmp/<name>-api.sock`; `update_config`, `load_config`, `start` and
`stop` never change it; `api_request` checks and addresses exactly that
path, and the readiness loop of `start` polls it or nothing; overriding
the `api-socket` configuration key changes the rendered command line (its
`--api-socket` value becomes the override) but not the path the
controller itself polls and connects to. -/
theorem api_socket_fixed_at_construction
    (name cp v : String) (s : VMState) (kwargs : List (String × Value))
    (f : Option Json) (m e : String) (d : Option Json) (envA : ApiEnv)
    (envStp : StopEnv) (envSt : StartEnv) :
    (init name (some cp)).api_socket = "/tmp/" ++ name ++ "-api.sock" ∧
    (init name none).api_socket = "/tmp/" ++ name ++ "-api.sock" ∧
    (update_config s kwargs).api_socket = s.api_socket ∧
    (load_config s f).api_socket = s.api_socket ∧
    (start s envSt).state.api_socket = s.api_socket ∧
    (stop s envStp).state.api_socket = s.api_socket ∧
    (api_request s m e d envA).checkedPath = s.api_socket ∧
    ((start s envSt).polledPath = none ∨
      (start s envSt).polledPath = some s.api_socket) ∧
    configGet (update_config s [("api-socket", Value.scalar (.s v))]).config
      "api-socket" = some (Value.scalar (.s v)) ∧
    (update_config s [("api-socket", Value.scalar (.s v))]).api_socket =
      s.api_socket ∧
    build_command
      (update_config (init name (some cp))
        [("api-socket", Value.scalar (.s v))]).config =
      ["cloud-hypervisor", "--kernel", "./vmlinux", "--disk",
       "path=./rootfs.img", "--cmdline",
       "console=hvc0 root=/dev/vda rw init=/init", "--cpus", "boot=2",
       "--memory", "size=256M", "--serial", "tty", "--console", "off",
       "--api-socket", v] := by
  refine ⟨rfl, rfl, rfl, ?_, ?_, ?_, ?_, ?_, ?_, rfl, ?_⟩
  · cases f with
    | none => rfl
    | some j => cases h : decodeConfig j <;> simp [load_config, h]
  · cases hpr : s.process with
    | none => cases hso : envSt.spawnOk <;> cases hsa : envSt.socketAppears <;>
        simp [start, startSpawn, hpr, hso, hsa]
    | some p =>
        cases hpo : envSt.pollIsNone <;> cases hso : envSt.spawnOk <;>
          cases hsa : envSt.socketAppears <;>
            simp [start, startSpawn, hpr, hpo, hso, hsa]
  · cases hpr : s.process with
    | none => simp [stop, hpr]
    | some p => cases he : envStp.exitsWithinTimeout <;> simp [stop, hpr, he]
  · cases hse : envA.socketExists <;>
      by_cases hm : (m == "GET" || m == "PUT" || m == "POST") = true <;>
        cases hcf : envA.connectFails <;>
          by_cases hst : (envA.status == 200) = true <;>
            cases hj : envA.jsonBody <;>
              simp [api_request, hse, hm, hcf, hst, hj]
  · cases hpr : s.process with
    | none => cases hso : envSt.spawnOk <;> cases hsa : envSt.socketAppears <;>
        simp [start, startSpawn, hpr, hso, hsa]
    | some p =>
        cases hpo : envSt.pollIsNone <;> cases hso : envSt.spawnOk <;>
          cases hsa : envSt.socketAppears <;>
            simp [start, startSpawn, hpr, hpo, hso, hsa]
  · exact configGet_dictSet s.config "api-socket" (Value.scalar (.s v))
  · rfl

end VMSpec
